import Mathlib

/-!
Verification of the session API controller in
`lms/djangoapps/api_manager/sessions/views.py`.

The controller is embedded shallowly: the external collaborators
(rate limiter, user directory, lockout tracker, password-expiry policy,
session engine, audit log) become fields of an explicit `ApiState`, and
each HTTP handler becomes a pure function from a state and a request to a
result carrying the HTTP status, the response body and the successor state.
A missing key in `request.DATA` is modelled as `Except.error ()`, mirroring
an uncaught Python `KeyError`.
-/

namespace ApiSessions

/-- A row of the `auth_user` table as this controller sees it
(`django.contrib.auth.models.User`): id, username, active flag. -/
structure Account where
  id : Nat
  username : String
  isActive : Bool
deriving DecidableEq, Repr

/-- The two session fields this controller reads and writes:
`SESSION_KEY` (the authenticated user id) and `BACKEND_SESSION_KEY`
(the dotted path of the authentication backend). -/
structure SessionData where
  userId : Option Nat
  backendPath : Option String
deriving DecidableEq, Repr

/-- Entries written to the `AUDIT_LOG` logger by the handlers. -/
inductive AuditEntry where
  | loginSuccess (uid : Nat)
  | authFailed (uid : Nat)
  | unknownUserWarn
  | sessionTerminated (uid : Nat)
deriving DecidableEq, Repr

/-- The combined state of all collaborators the controller touches:
the user directory (`accounts`), the `LoginFailures` tracker
(`lockoutEnabled`, `lockedOut`, `lockoutCounter`), the
`PasswordHistory` policy (`passwordExpired`), the
`BadRequestRateLimiter` (`rateLimitExceeded`, `badRequestTicks`),
`django.contrib.auth.authenticate` (`authOk`, `authBackend`),
`load_backend(...).get_user` (`backendGetUser`), the session engine
(`sessions`, `freshId` for the key `session.create()` picks,
`expiryAge` for `get_expiry_age()`), `timezone.now()` (`now`),
the `last_login` column (`lastLogin`), the audit logger (`auditLog`),
the CSRF machinery (`csrfToken`) and `generate_base_uri` (`baseUri`). -/
structure ApiState where
  accounts : String → Option Account
  lockoutEnabled : Bool
  lockedOut : Nat → Bool
  lockoutCounter : Nat → Nat
  passwordExpired : Nat → Bool
  rateLimitExceeded : Bool
  badRequestTicks : Nat
  authOk : String → String → Bool
  authBackend : String
  backendGetUser : String → Nat → Option Account
  sessions : String → Option SessionData
  freshId : String
  expiryAge : Nat
  now : Nat
  lastLogin : Nat → Option Nat
  auditLog : List AuditEntry
  csrfToken : String
  baseUri : String

/-- The `request.DATA` body: each key either present or absent. -/
structure RequestData where
  username : Option String
  password : Option String

/-- The `response_data` dictionary: every key the handlers ever set,
each `none` when the handler did not set it. -/
structure ResponseBody where
  message : Option String := none
  token : Option String := none
  expires : Option Nat := none
  user : Option Account := none
  uri : Option String := none
  csrftoken : Option String := none
  user_id : Option Nat := none
deriving DecidableEq, Repr

/-- Outcome of `SessionsList.login_user`: HTTP status, body, successor
state, and whether `authenticate(...)` was invoked. -/
structure LoginResult where
  status : Nat
  body : ResponseBody
  state : ApiState
  authAttempted : Bool

/-- Outcome of `SessionsDetail.get` / `SessionsDetail.delete`. -/
structure ViewResult where
  status : Nat
  body : ResponseBody
  state : ApiState

/-- `engine.SessionStore(session_id)`: loading a missing session yields an
empty session dictionary (no `SESSION_KEY`, no `BACKEND_SESSION_KEY`). -/
def loadSession (st : ApiState) (sid : String) : SessionData :=
  (st.sessions sid).getD { userId := none, backendPath := none }

def rateLimitMsg : String := "Rate limit exceeded in api login."

def lockoutMsg : String :=
  "This account has been temporarily locked due to excessive login failures. Try again later."

def passwordExpiredMsg : String :=
  "Your password has expired due to password policy on this account. You must reset your password before you can log in again."

/-- The tail of the success path of `login_user`: write `SESSION_KEY` and
`BACKEND_SESSION_KEY` into the session keyed `sid`, `session.save()`,
fill `response_data` (token, expires, user, uri, csrftoken), update the
account's `last_login` to `timezone.now()`, and append the success entry
to the audit log. `okStatus` is 201 for a fresh session, 200 for an
upgrade. -/
def finishLogin (st : ApiState) (eu : Account) (sid : String) (okStatus : Nat) : LoginResult :=
  let written : SessionData := { userId := some eu.id, backendPath := some st.authBackend }
  let st1 := { st with sessions := fun k => if k = sid then some written else st.sessions k }
  let st2 := { st1 with
               lastLogin := fun i => if i = eu.id then some st1.now else st1.lastLogin i,
               auditLog := st1.auditLog ++ [AuditEntry.loginSuccess eu.id] }
  { status := okStatus,
    body := { token := some sid, expires := some st.expiryAge, user := some eu,
              uri := some (st.baseUri ++ "/" ++ sid), csrftoken := some st.csrfToken },
    state := st2,
    authAttempted := true }

/-- `SessionsList.login_user(request, session_id=None)`, the shared body of
`POST /sessions` (`sessionId = none`) and `POST /sessions/{id}`
(`sessionId = some sid`). Steps, in source order: rate-limit gate;
`request.DATA` username lookup (KeyError when absent); account resolution;
lockout gate; password-expiry gate; `authenticate` with
`request.DATA` password (KeyError when absent); on success clear the
lockout counter, then branch on `is_active` and on the presence of
`SESSION_KEY` in the loaded session; on failure tick the bad-request
counter, increment the lockout counter and log a warning. -/
def loginUser (st : ApiState) (data : RequestData) (sessionId : Option String) :
    Except Unit LoginResult :=
  if st.rateLimitExceeded then
    Except.ok { status := 403, body := { message := some rateLimitMsg },
                state := st, authAttempted := false }
  else
    match data.username with
    | none => Except.error ()
    | some uname =>
      match st.accounts uname with
      | none =>
        Except.ok { status := 404, body := {},
                    state := { st with auditLog := st.auditLog ++ [AuditEntry.unknownUserWarn] },
                    authAttempted := false }
      | some eu =>
        if st.lockoutEnabled && st.lockedOut eu.id then
          Except.ok { status := 403, body := { message := some lockoutMsg },
                      state := st, authAttempted := false }
        else if st.passwordExpired eu.id then
          Except.ok { status := 403, body := { message := some passwordExpiredMsg },
                      state := st, authAttempted := false }
        else
          match data.password with
          | none => Except.error ()
          | some pw =>
            if st.authOk eu.username pw then
              let st1 :=
                if st.lockoutEnabled then
                  { st with lockoutCounter := fun i => if i = eu.id then 0 else st.lockoutCounter i }
                else st
              if eu.isActive then
                match sessionId with
                | none => Except.ok (finishLogin st1 eu st.freshId 201)
                | some sid =>
                  if ((loadSession st1 sid).userId).isSome then
                    Except.ok { status := 403, body := {}, state := st1, authAttempted := true }
                  else
                    Except.ok (finishLogin st1 eu sid 200)
              else
                Except.ok { status := 403, body := {}, state := st1, authAttempted := true }
            else
              let st1 := { st with badRequestTicks := st.badRequestTicks + 1 }
              let st2 :=
                if st.lockoutEnabled then
                  { st1 with lockoutCounter := fun i => if i = eu.id then st.lockoutCounter i + 1
                                                        else st.lockoutCounter i }
                else st1
              Except.ok { status := 401, body := {},
                          state := { st2 with auditLog := st2.auditLog ++ [AuditEntry.authFailed eu.id] },
                          authAttempted := true }

/-- The identity-resolution step of `SessionsDetail.get`: read
`SESSION_KEY` and `BACKEND_SESSION_KEY` (a missing key raises KeyError,
caught to `AnonymousUser`), then `load_backend(path).get_user(user_id)`,
with `or AnonymousUser()` collapsing a failed lookup to anonymous. -/
def resolveSessionUser (st : ApiState) (sid : String) : Option Account :=
  match (loadSession st sid).userId, (loadSession st sid).backendPath with
  | some uid, some bp => st.backendGetUser bp uid
  | _, _ => none

/-- `SessionsDetail.get(request, session_id)`: 200 with token, expires,
uri and user_id when the session resolves to an authenticated user,
404 otherwise; no collaborator state is written on either path. -/
def getSession (st : ApiState) (sid : String) : ViewResult :=
  match resolveSessionUser st sid with
  | some u =>
    { status := 200,
      body := { token := some sid, expires := some st.expiryAge,
                uri := some st.baseUri, user_id := some u.id },
      state := st }
  | none => { status := 404, body := {}, state := st }

/-- `SessionsDetail.delete(request, session_id)`: when the loaded session
has no `SESSION_KEY`, return 204 untouched; otherwise delete the session
record, log the terminated user id, and return 204. -/
def deleteSession (st : ApiState) (sid : String) : ViewResult :=
  match (loadSession st sid).userId with
  | none => { status := 204, body := {}, state := st }
  | some uid =>
    { status := 204, body := {},
      state := { st with
                 sessions := fun k => if k = sid then none else st.sessions k,
                 auditLog := st.auditLog ++ [AuditEntry.sessionTerminated uid] } }

/-- All five optional success-body fields of a login response are set. -/
def bodyComplete (b : ResponseBody) : Bool :=
  b.token.isSome && b.expires.isSome && b.user.isSome && b.uri.isSome && b.csrftoken.isSome

/-- A sample active account used by the concrete instantiations below. -/
def acctStaff : Account := { id := 7, username := "staff", isActive := true }

/-- A concrete baseline state: one account `staff` with password `edx`,
lockout tracking on but nobody locked out, one authenticated session
`sess1` belonging to user 7 and one anonymous session `anon1`. -/
def baseState : ApiState :=
  { accounts := fun u => if u = "staff" then some acctStaff else none,
    lockoutEnabled := true,
    lockedOut := fun _ => false,
    lockoutCounter := fun _ => 0,
    passwordExpired := fun _ => false,
    rateLimitExceeded := false,
    badRequestTicks := 0,
    authOk := fun u p => u == "staff" && p == "edx",
    authBackend := "django.contrib.auth.backends.ModelBackend",
    backendGetUser := fun bp uid =>
      if bp == "django.contrib.auth.backends.ModelBackend" && uid == 7 then some acctStaff else none,
    sessions := fun s =>
      if s = "sess1" then
        some { userId := some 7, backendPath := some "django.contrib.auth.backends.ModelBackend" }
      else if s = "anon1" then some { userId := none, backendPath := none }
      else none,
    freshId := "fresh1",
    expiryAge := 3600,
    now := 100,
    lastLogin := fun _ => none,
    auditLog := [],
    csrfToken := "csrf",
    baseUri := "http://testserver/api/sessions" }

/-- A sample inactive account with a nonzero lockout counter, used to
refute C2 as stated. -/
def acctAnn : Account := { id := 9, username := "ann", isActive := false }

/-- A concrete state for the C2 counterexample: `ann` is inactive, her
password `pw` is correct, lockout tracking is enabled, and her lockout
counter currently reads 3. -/
def c2State : ApiState :=
  { baseState with
    accounts := fun u => if u = "ann" then some acctAnn else baseState.accounts u,
    authOk := fun u p => (u == "ann" && p == "pw") || baseState.authOk u p,
    lockoutCounter := fun i => if i = 9 then 3 else 0 }

/-- A concrete state for the C10 counterexamples: the baseline plus
`ann` locked out and the rate limiter tripped in `rlState` below. -/
def c10LockState : ApiState :=
  { c2State with lockedOut := fun i => i == 9 }

/-- The baseline state with the bad-request rate limit exceeded. -/
def rlState : ApiState :=
  { baseState with rateLimitExceeded := true }

/-- C3: with lockout tracking enabled and the resolved account locked out,
`login_user` answers 403 with the lockout message, leaves the state
untouched, and never reaches `authenticate` — independently of the
supplied password (no hypothesis about it is needed). -/
theorem lockedOut_forbidden_before_auth
    (st : ApiState) (data : RequestData) (sessionId : Option String)
    (uname : String) (eu : Account)
    (hRL : st.rateLimitExceeded = false)
    (hU : data.username = some uname)
    (hAcc : st.accounts uname = some eu)
    (hEnabled : st.lockoutEnabled = true)
    (hLocked : st.lockedOut eu.id = true) :
    loginUser st data sessionId =
      Except.ok { status := 403, body := { message := some lockoutMsg },
                  state := st, authAttempted := false } := by
  simp [loginUser, hRL, hU, hAcc, hEnabled, hLocked]

/-- Witness for C3 at a concrete locked-out state and a correct password. -/
theorem lockedOut_forbidden_before_auth_witness :
    loginUser { baseState with lockedOut := fun i => i == 7 }
        { username := some "staff", password := some "edx" } none =
      Except.ok { status := 403, body := { message := some lockoutMsg },
                  state := { baseState with lockedOut := fun i => i == 7 },
                  authAttempted := false } :=
  lockedOut_forbidden_before_auth _ _ none "staff" acctStaff rfl rfl (by decide) rfl (by decide)

/-- C7: when the resolved account's password is expired per policy,
`login_user` answers 403, does not call `authenticate`, and returns the
state unchanged (so no session is created, loaded or written) —
independently of the supplied password. -/
theorem passwordExpired_forbidden_before_auth
    (st : ApiState) (data : RequestData) (sessionId : Option String)
    (uname : String) (eu : Account)
    (hRL : st.rateLimitExceeded = false)
    (hU : data.username = some uname)
    (hAcc : st.accounts uname = some eu)
    (hExp : st.passwordExpired eu.id = true) :
    (loginUser st data sessionId).map LoginResult.status = Except.ok 403 ∧
    (loginUser st data sessionId).map LoginResult.authAttempted = Except.ok false ∧
    (loginUser st data sessionId).map LoginResult.state = Except.ok st := by
  by_cases hL : (st.lockoutEnabled && st.lockedOut eu.id) = true
  · simp [loginUser, Except.map, hRL, hU, hAcc, hL]
  · simp only [Bool.not_eq_true] at hL
    simp [loginUser, Except.map, hRL, hU, hAcc, hL, hExp]

/-- Witness for C7 at a concrete state with an expired password and a
correct supplied password. -/
theorem passwordExpired_forbidden_before_auth_witness :
    ((loginUser { baseState with passwordExpired := fun i => i == 7 }
        { username := some "staff", password := some "edx" } none).map LoginResult.status =
      Except.ok 403) ∧
    ((loginUser { baseState with passwordExpired := fun i => i == 7 }
        { username := some "staff", password := some "edx" } none).map LoginResult.authAttempted =
      Except.ok false) :=
  let h := passwordExpired_forbidden_before_auth
    { baseState with passwordExpired := fun i => i == 7 }
    { username := some "staff", password := some "edx" } none "staff" acctStaff
    rfl rfl (by decide) (by decide)
  ⟨h.1, h.2.1⟩

/-- C6: an unknown username (outside the rate-limit gate) yields 404 and
mutates no session, no lockout counter and no bad-request counter. -/
theorem unknownUser_notFound_no_mutation
    (st : ApiState) (data : RequestData) (sessionId : Option String) (uname : String)
    (hRL : st.rateLimitExceeded = false)
    (hU : data.username = some uname)
    (hAcc : st.accounts uname = none) :
    (loginUser st data sessionId).map LoginResult.status = Except.ok 404 ∧
    (loginUser st data sessionId).map (fun r => r.state.sessions) = Except.ok st.sessions ∧
    (loginUser st data sessionId).map (fun r => r.state.lockoutCounter) =
      Except.ok st.lockoutCounter ∧
    (loginUser st data sessionId).map (fun r => r.state.badRequestTicks) =
      Except.ok st.badRequestTicks := by
  simp [loginUser, Except.map, hRL, hU, hAcc]

/-- Witness for C6 at a concrete unknown username. -/
theorem unknownUser_notFound_no_mutation_witness :
    (loginUser baseState { username := some "ghost", password := some "edx" } none).map
      LoginResult.status = Except.ok 404 :=
  (unknownUser_notFound_no_mutation baseState
    { username := some "ghost", password := some "edx" } none "ghost"
    rfl rfl (by decide)).1

/-- C4: a wrong password on an existing, reachable account (rate limit not
exceeded, not locked out, password not expired) yields 401, bumps the
bad-request counter by one, increments that account's lockout counter by
one exactly when lockout tracking is enabled, and writes no session. -/
theorem badPassword_unauthorized_effects
    (st : ApiState) (data : RequestData) (sessionId : Option String)
    (uname : String) (eu : Account) (pw : String)
    (hRL : st.rateLimitExceeded = false)
    (hU : data.username = some uname)
    (hAcc : st.accounts uname = some eu)
    (hLock : (st.lockoutEnabled && st.lockedOut eu.id) = false)
    (hExp : st.passwordExpired eu.id = false)
    (hPw : data.password = some pw)
    (hAuth : st.authOk eu.username pw = false) :
    (loginUser st data sessionId).map LoginResult.status = Except.ok 401 ∧
    (loginUser st data sessionId).map (fun r => r.state.badRequestTicks) =
      Except.ok (st.badRequestTicks + 1) ∧
    (st.lockoutEnabled = true →
      (loginUser st data sessionId).map (fun r => r.state.lockoutCounter eu.id) =
        Except.ok (st.lockoutCounter eu.id + 1)) ∧
    (st.lockoutEnabled = false →
      (loginUser st data sessionId).map (fun r => r.state.lockoutCounter) =
        Except.ok st.lockoutCounter) ∧
    (loginUser st data sessionId).map (fun r => r.state.sessions) = Except.ok st.sessions := by
  by_cases hE : st.lockoutEnabled = true
  · have hL2 : st.lockedOut eu.id = false := by rw [hE] at hLock; simpa using hLock
    simp [loginUser, Except.map, hRL, hU, hAcc, hL2, hExp, hPw, hAuth, hE]
  · simp only [Bool.not_eq_true] at hE
    simp [loginUser, Except.map, hRL, hU, hAcc, hExp, hPw, hAuth, hE]

/-- C2 (amended): when credentials authenticate but the account is
inactive, `login_user` answers 403 and touches no session, no bad-request
counter, no last-login column and no audit log; but the lockout counter is
cleared whenever authentication succeeds — the `is_active` check comes
after the clearing — so the clearing is not conditioned on the account
being active. -/
theorem inactiveAccount_forbidden_clears_lockout
    (st : ApiState) (data : RequestData) (sessionId : Option String)
    (uname : String) (eu : Account) (pw : String)
    (hRL : st.rateLimitExceeded = false)
    (hU : data.username = some uname)
    (hAcc : st.accounts uname = some eu)
    (hLock : (st.lockoutEnabled && st.lockedOut eu.id) = false)
    (hExp : st.passwordExpired eu.id = false)
    (hPw : data.password = some pw)
    (hAuth : st.authOk eu.username pw = true)
    (hInact : eu.isActive = false) :
    (loginUser st data sessionId).map LoginResult.status = Except.ok 403 ∧
    (loginUser st data sessionId).map (fun r => r.state.sessions) = Except.ok st.sessions ∧
    (loginUser st data sessionId).map (fun r => r.state.badRequestTicks) =
      Except.ok st.badRequestTicks ∧
    (loginUser st data sessionId).map (fun r => r.state.lastLogin) = Except.ok st.lastLogin ∧
    (loginUser st data sessionId).map (fun r => r.state.auditLog) = Except.ok st.auditLog ∧
    (st.lockoutEnabled = true →
      (loginUser st data sessionId).map (fun r => r.state.lockoutCounter eu.id) =
        Except.ok 0 ∧
      ∀ j, j ≠ eu.id →
        (loginUser st data sessionId).map (fun r => r.state.lockoutCounter j) =
          Except.ok (st.lockoutCounter j)) ∧
    (st.lockoutEnabled = false →
      (loginUser st data sessionId).map (fun r => r.state.lockoutCounter) =
        Except.ok st.lockoutCounter) := by
  by_cases hE : st.lockoutEnabled = true
  · have hL2 : st.lockedOut eu.id = false := by rw [hE] at hLock; simpa using hLock
    simp [loginUser, Except.map, hRL, hU, hAcc, hL2, hExp, hPw, hAuth, hInact, hE]
    intro j hj
    simp [hj]
  · simp only [Bool.not_eq_true] at hE
    simp [loginUser, Except.map, hRL, hU, hAcc, hExp, hPw, hAuth, hInact, hE]

/-- Counterexample to C2 as stated: logging in the inactive account `ann`
with her correct password yields 403 but also mutates state — her lockout
counter drops from 3 to 0, so the counter is cleared on successful
authentication even though the account is not active. -/
theorem inactiveAccount_counterexample :
    c2State.lockoutCounter 9 = 3 ∧
    (loginUser c2State { username := some "ann", password := some "pw" } none).map
      LoginResult.status = Except.ok 403 ∧
    (loginUser c2State { username := some "ann", password := some "pw" } none).map
      (fun r => r.state.lockoutCounter 9) = Except.ok 0 := by
  refine ⟨rfl, ?_, ?_⟩ <;> rfl

/-- Witness for the amended C2 at the same concrete state. -/
theorem inactiveAccount_forbidden_clears_lockout_witness :
    ((loginUser c2State { username := some "ann", password := some "pw" } none).map
      LoginResult.status = Except.ok 403) ∧
    ((loginUser c2State { username := some "ann", password := some "pw" } none).map
      (fun r => r.state.sessions) = Except.ok c2State.sessions) :=
  let h := inactiveAccount_forbidden_clears_lockout c2State
    { username := some "ann", password := some "pw" } none "ann" acctAnn "pw"
    rfl rfl (by decide) (by decide) (by decide) rfl (by decide) rfl
  ⟨h.1, h.2.1⟩

/-- Witness for C4: wrong password for `staff` at the baseline state, where
lockout tracking is enabled and the counter starts at 0. -/
theorem badPassword_unauthorized_effects_witness :
    ((loginUser baseState { username := some "staff", password := some "wrong" } none).map
      LoginResult.status = Except.ok 401) ∧
    ((loginUser baseState { username := some "staff", password := some "wrong" } none).map
      (fun r => r.state.lockoutCounter 7) = Except.ok 1) :=
  let h := badPassword_unauthorized_effects baseState
    { username := some "staff", password := some "wrong" } none "staff" acctStaff "wrong"
    rfl rfl (by decide) (by decide) (by decide) rfl (by decide)
  ⟨h.1, h.2.2.1 rfl⟩

/-- Case analysis of every exit of `login_user`: a session key `k` is
either left unchanged, or written because an upgrade of session `k` was
requested and the loaded session carried no `SESSION_KEY`, or written
because a fresh session was created (no session-id supplied) and `k` is
the key `session.create()` picked. -/
lemma loginUser_session_write
    (st : ApiState) (data : RequestData) (sessionId : Option String) (r : LoginResult)
    (h : loginUser st data sessionId = Except.ok r) (k : String) :
    r.state.sessions k = st.sessions k ∨
    (sessionId = some k ∧ ((loadSession st k).userId).isSome = false) ∨
    (sessionId = none ∧ k = st.freshId) := by
  unfold loginUser at h
  repeat' (split at h)
  all_goals try (dsimp only at h)
  repeat' (split at h)
  all_goals first
    | (injection h with h2; subst h2)
    | injection h
  all_goals try (left; rfl)
  all_goals first
    | (by_cases hk : k = st.freshId
       · right; right; exact ⟨rfl, hk⟩
       · left; simp [finishLogin, hk])
    | (rename_i sid hns
       by_cases hk : k = sid
       · subst hk; right; left
         exact ⟨rfl, by simpa [loadSession] using hns⟩
       · left; simp [finishLogin, hk])

/-- Every non-raising exit of `login_user` carries one of the five
statuses the handler can produce. -/
lemma loginUser_ok_status
    (st : ApiState) (data : RequestData) (sessionId : Option String) (r : LoginResult)
    (h : loginUser st data sessionId = Except.ok r) :
    r.status = 200 ∨ r.status = 201 ∨ r.status = 401 ∨ r.status = 403 ∨ r.status = 404 := by
  unfold loginUser at h
  repeat' (split at h)
  all_goals try (dsimp only at h)
  repeat' (split at h)
  all_goals first
    | (injection h with h2; subst h2)
    | injection h
  all_goals simp [finishLogin]

/-- `login_user` raises (a `KeyError` escapes) exactly when either the
username key is absent, or the username resolves to an account that
passes the lockout and password-expiry gates while the password key is
absent — and in both cases only when the rate limit gate passed first. -/
lemma loginUser_error_iff
    (st : ApiState) (data : RequestData) (sessionId : Option String) :
    loginUser st data sessionId = Except.error () ↔
      st.rateLimitExceeded = false ∧
        (data.username = none ∨
          ∃ uname eu, data.username = some uname ∧ st.accounts uname = some eu ∧
            (st.lockoutEnabled && st.lockedOut eu.id) = false ∧
            st.passwordExpired eu.id = false ∧ data.password = none) := by
  cases hRL : st.rateLimitExceeded
  · cases hU : data.username with
    | none => simp [loginUser, hRL, hU]
    | some uname =>
      cases hAcc : st.accounts uname with
      | none => simp [loginUser, hRL, hU, hAcc]
      | some eu =>
        by_cases hLock : (st.lockoutEnabled && st.lockedOut eu.id) = true
        · rw [Bool.and_eq_true] at hLock
          simp [loginUser, hRL, hU, hAcc, hLock.1, hLock.2]
        · simp only [Bool.not_eq_true] at hLock
          by_cases hExp : st.passwordExpired eu.id = true
          · simp [loginUser, hRL, hU, hAcc, hLock, hExp]
          · simp only [Bool.not_eq_true] at hExp
            cases hPw : data.password with
            | none =>
              simp [loginUser, hRL, hU, hAcc, hLock, hExp, hPw]
              intro hE
              simpa [hE] using hLock
            | some pw =>
              simp only [loginUser, hRL, hU, hAcc, hLock, hExp, hPw]
              constructor
              · intro h
                exfalso
                revert h
                split
                all_goals repeat' split
                all_goals simp [finishLogin]
              · rintro ⟨-, h | ⟨uname2, eu2, h2, -, -, -, hcontra⟩⟩
                · exact Option.noConfusion h
                · exact Option.noConfusion hcontra
  · simp [loginUser, hRL]

/-- C10 (amended): `login_user` reads the username key only after the
rate-limit gate passes, and the password key only when the username
resolves to an account that clears the lockout and password-expiry gates;
exactly then does a missing key raise an uncaught KeyError, and on every
other input the handler is total with status in 200, 201, 401, 403, 404. -/
theorem loginUser_totality
    (st : ApiState) (data : RequestData) (sessionId : Option String) :
    (loginUser st data sessionId = Except.error () ↔
      st.rateLimitExceeded = false ∧
        (data.username = none ∨
          ∃ uname eu, data.username = some uname ∧ st.accounts uname = some eu ∧
            (st.lockoutEnabled && st.lockedOut eu.id) = false ∧
            st.passwordExpired eu.id = false ∧ data.password = none)) ∧
    (∀ r, loginUser st data sessionId = Except.ok r →
      r.status = 200 ∨ r.status = 201 ∨ r.status = 401 ∨ r.status = 403 ∨ r.status = 404) :=
  ⟨loginUser_error_iff st data sessionId,
   fun r h => loginUser_ok_status st data sessionId r h⟩

/-- Counterexample to C10 as stated: a request body with no username and
no password key still gets a 403 Response when the rate limit is
exceeded (the rate-limit gate returns before `request.DATA` is read),
and a body with a username but no password key still gets a 403 Response
when the account is locked out — no KeyError is raised in either case. -/
theorem loginUser_totality_counterexample :
    ((loginUser rlState { username := none, password := none } none).map
      LoginResult.status = Except.ok 403) ∧
    ((loginUser c10LockState { username := some "ann", password := none } none).map
      LoginResult.status = Except.ok 403) := by
  refine ⟨?_, ?_⟩ <;> rfl

/-- Witness for C10: at the baseline state a body with no username key
raises, obtained from the iff of the theorem at a concrete input. -/
theorem loginUser_totality_witness :
    loginUser baseState { username := none, password := none } none = Except.error () :=
  (loginUser_totality baseState { username := none, password := none } none).1.mpr
    ⟨rfl, Or.inl rfl⟩

/-- C9: a successful login on an active account with no session-id
supplied creates the fresh session and answers 201; with a session-id
whose loaded session carries no identity it upgrades that session in
place (other keys untouched) and answers 200; both success bodies carry
token, expires, user, uri and csrftoken. -/
theorem successfulLogin_creates_or_upgrades
    (st : ApiState) (data : RequestData) (uname : String) (eu : Account) (pw : String)
    (hRL : st.rateLimitExceeded = false)
    (hU : data.username = some uname)
    (hAcc : st.accounts uname = some eu)
    (hLock : (st.lockoutEnabled && st.lockedOut eu.id) = false)
    (hExp : st.passwordExpired eu.id = false)
    (hPw : data.password = some pw)
    (hAuth : st.authOk eu.username pw = true)
    (hAct : eu.isActive = true) :
    ((loginUser st data none).map LoginResult.status = Except.ok 201 ∧
     (loginUser st data none).map (fun r => r.state.sessions st.freshId) =
       Except.ok (some { userId := some eu.id, backendPath := some st.authBackend }) ∧
     (loginUser st data none).map (fun r => bodyComplete r.body) = Except.ok true) ∧
    (∀ sid, (loadSession st sid).userId = none →
      (loginUser st data (some sid)).map LoginResult.status = Except.ok 200 ∧
      (loginUser st data (some sid)).map (fun r => r.state.sessions sid) =
        Except.ok (some { userId := some eu.id, backendPath := some st.authBackend }) ∧
      (∀ k, k ≠ sid → (loginUser st data (some sid)).map (fun r => r.state.sessions k) =
        Except.ok (st.sessions k)) ∧
      (loginUser st data (some sid)).map (fun r => bodyComplete r.body) = Except.ok true) := by
  constructor
  · by_cases hE : st.lockoutEnabled = true
    · have hL2 : st.lockedOut eu.id = false := by rw [hE] at hLock; simpa using hLock
      simp [loginUser, finishLogin, bodyComplete, Except.map,
            hRL, hU, hAcc, hL2, hExp, hPw, hAuth, hAct, hE]
    · simp only [Bool.not_eq_true] at hE
      simp [loginUser, finishLogin, bodyComplete, Except.map,
            hRL, hU, hAcc, hExp, hPw, hAuth, hAct, hE]
  · intro sid hsid
    simp only [loadSession] at hsid
    by_cases hE : st.lockoutEnabled = true
    · have hL2 : st.lockedOut eu.id = false := by rw [hE] at hLock; simpa using hLock
      refine ⟨?_, ?_, ?_, ?_⟩ <;>
        simp [loginUser, finishLogin, bodyComplete, loadSession, Except.map,
              hRL, hU, hAcc, hL2, hExp, hPw, hAuth, hAct, hE, hsid]
      intro k hk
      simp [hk]
    · simp only [Bool.not_eq_true] at hE
      refine ⟨?_, ?_, ?_, ?_⟩ <;>
        simp [loginUser, finishLogin, bodyComplete, loadSession, Except.map,
              hRL, hU, hAcc, hExp, hPw, hAuth, hAct, hE, hsid]
      intro k hk
      simp [hk]

/-- Witness for C9: `staff`/`edx` at the baseline state creates the fresh
session with 201, and upgrades the anonymous session `anon1` with 200. -/
theorem successfulLogin_creates_or_upgrades_witness :
    ((loginUser baseState { username := some "staff", password := some "edx" } none).map
      LoginResult.status = Except.ok 201) ∧
    ((loginUser baseState { username := some "staff", password := some "edx" }
        (some "anon1")).map LoginResult.status = Except.ok 200) :=
  let h := successfulLogin_creates_or_upgrades baseState
    { username := some "staff", password := some "edx" } "staff" acctStaff "edx"
    rfl rfl (by decide) (by decide) (by decide) rfl (by decide) rfl
  ⟨h.1.1, (h.2 "anon1" (by decide)).1⟩

/-- C1 (amended): for a call that names an existing session already
carrying an authenticated identity (the only theorem-level hypothesis),
any resolving username whose password authenticates is answered 403 with
no session write at all; and on every outcome of such a call — the 401
wrong-password and 404 unknown-username exits included — the identity
fields of that session are left exactly as they were: an authenticated
session is never overwritten or re-assigned through this controller. -/
theorem authenticatedSession_never_overwritten
    (st : ApiState) (data : RequestData) (sid : String)
    (hKey : ((loadSession st sid).userId).isSome = true) :
    (∀ uname eu pw, data.username = some uname → st.accounts uname = some eu →
      data.password = some pw → st.authOk eu.username pw = true →
      (loginUser st data (some sid)).map LoginResult.status = Except.ok 403 ∧
      (loginUser st data (some sid)).map (fun r => r.state.sessions) =
        Except.ok st.sessions) ∧
    (∀ r, loginUser st data (some sid) = Except.ok r →
      r.state.sessions sid = st.sessions sid) := by
  constructor
  · intro uname eu pw hU hAcc hPw hAuth
    simp only [loadSession] at hKey
    cases hRL : st.rateLimitExceeded
    · by_cases hLock : (st.lockoutEnabled && st.lockedOut eu.id) = true
      · simp [loginUser, Except.map, hRL, hU, hAcc, hLock]
      · simp only [Bool.not_eq_true] at hLock
        by_cases hExp : st.passwordExpired eu.id = true
        · simp [loginUser, Except.map, hRL, hU, hAcc, hLock, hExp]
        · simp only [Bool.not_eq_true] at hExp
          by_cases hAct : eu.isActive = true
          · by_cases hE : st.lockoutEnabled = true
            · have hL2 : st.lockedOut eu.id = false := by simpa [hE] using hLock
              simp [loginUser, loadSession, Except.map,
                    hRL, hU, hAcc, hL2, hExp, hPw, hAuth, hAct, hE, hKey]
            · simp only [Bool.not_eq_true] at hE
              simp [loginUser, loadSession, Except.map,
                    hRL, hU, hAcc, hExp, hPw, hAuth, hAct, hE, hKey]
          · simp only [Bool.not_eq_true] at hAct
            by_cases hE : st.lockoutEnabled = true
            · have hL2 : st.lockedOut eu.id = false := by simpa [hE] using hLock
              simp [loginUser, Except.map,
                    hRL, hU, hAcc, hL2, hExp, hPw, hAuth, hAct, hE]
            · simp only [Bool.not_eq_true] at hE
              simp [loginUser, Except.map,
                    hRL, hU, hAcc, hExp, hPw, hAuth, hAct, hE]
    · simp [loginUser, Except.map, hRL]
  · intro r hr
    rcases loginUser_session_write st data (some sid) r hr sid with h1 | ⟨-, h2⟩ | ⟨h3, -⟩
    · exact h1
    · rw [hKey] at h2
      exact Bool.noConfusion h2
    · exact Option.noConfusion h3

/-- Counterexample to C1 as stated: at the baseline state the session
`sess1` already carries user 7, yet a call naming it with a wrong
password is answered 401, not Forbidden — the 403-for-every-call part of
the claim fails for calls whose credentials do not authenticate. -/
theorem authenticatedSession_counterexample :
    (((loadSession baseState "sess1").userId).isSome = true) ∧
    ((loginUser baseState { username := some "staff", password := some "wrong" }
        (some "sess1")).map LoginResult.status = Except.ok 401) := by
  refine ⟨?_, ?_⟩ <;> rfl

/-- Witness for the amended C1: correct credentials against the
already-authenticated session `sess1` yield 403 and no session write. -/
theorem authenticatedSession_never_overwritten_witness :
    ((loginUser baseState { username := some "staff", password := some "edx" }
        (some "sess1")).map LoginResult.status = Except.ok 403) ∧
    ((loginUser baseState { username := some "staff", password := some "edx" }
        (some "sess1")).map (fun r => r.state.sessions) = Except.ok baseState.sessions) :=
  (authenticatedSession_never_overwritten baseState
    { username := some "staff", password := some "edx" } "sess1"
    (by decide)).1 "staff" acctStaff "edx" rfl (by decide) rfl (by decide)

/-- C5: delete always answers 204; when the loaded session carries no
`SESSION_KEY` (missing or anonymous) the state — sessions and audit log
included — is returned untouched; and deleting the same id twice equals
deleting it once, statuses, bodies and states all. -/
theorem deleteSession_idempotent (st : ApiState) (sid : String) :
    (deleteSession st sid).status = 204 ∧
    ((loadSession st sid).userId = none → (deleteSession st sid).state = st) ∧
    deleteSession (deleteSession st sid).state sid = deleteSession st sid := by
  refine ⟨?_, ?_, ?_⟩
  · unfold deleteSession
    split <;> rfl
  · intro h
    simp [deleteSession, h]
  · cases hU : (loadSession st sid).userId with
    | none =>
      have h1 : deleteSession st sid = { status := 204, body := {}, state := st } := by
        simp [deleteSession, hU]
      rw [h1]
      exact h1
    | some uid =>
      have h1 : deleteSession st sid =
          { status := 204, body := {},
            state := { st with
                       sessions := fun k => if k = sid then none else st.sessions k,
                       auditLog := st.auditLog ++ [AuditEntry.sessionTerminated uid] } } := by
        simp [deleteSession, hU]
      rw [h1]
      simp [deleteSession, loadSession]

/-- Witness for C5: deleting a missing id leaves the baseline state
untouched (so no audit entry), and deleting `sess1` answers 204 twice
over with identical outcomes. -/
theorem deleteSession_idempotent_witness :
    (deleteSession baseState "missing").state = baseState ∧
    (deleteSession baseState "sess1").status = 204 ∧
    deleteSession (deleteSession baseState "sess1").state "sess1" =
      deleteSession baseState "sess1" :=
  ⟨(deleteSession_idempotent baseState "missing").2.1 (by decide),
   (deleteSession_idempotent baseState "sess1").1,
   (deleteSession_idempotent baseState "sess1").2.2⟩

/-- C8: get-session never writes any state; when the stored identity
resolves to a user it answers 200 with token, remaining expiry, resource
uri and that user's id, and when the identity is missing or fails to
resolve it answers 404 with an empty body. -/
theorem getSession_spec (st : ApiState) (sid : String) :
    (getSession st sid).state = st ∧
    (∀ u, resolveSessionUser st sid = some u →
      getSession st sid =
        { status := 200,
          body := { token := some sid, expires := some st.expiryAge,
                    uri := some st.baseUri, user_id := some u.id },
          state := st }) ∧
    (resolveSessionUser st sid = none →
      getSession st sid = { status := 404, body := {}, state := st }) := by
  refine ⟨?_, ?_, ?_⟩
  · unfold getSession
    split <;> rfl
  · intro u hu
    simp [getSession, hu]
  · intro hn
    simp [getSession, hn]

/-- Witness for C8: the authenticated session `sess1` at the baseline
state answers 200 with user id 7, and the missing id answers 404. -/
theorem getSession_spec_witness :
    getSession baseState "sess1" =
      { status := 200,
        body := { token := some "sess1", expires := some 3600,
                  uri := some "http://testserver/api/sessions", user_id := some 7 },
        state := baseState } ∧
    getSession baseState "missing" = { status := 404, body := {}, state := baseState } :=
  ⟨(getSession_spec baseState "sess1").2.1 acctStaff (by decide),
   (getSession_spec baseState "missing").2.2 (by decide)⟩

end ApiSessions
